import Mathlib

/-!
Verification development for the GambitHD2 strategic analysis engine
(src/js/gambit.js, src/unnamed/part_001, src/unnamed/part_002).

JavaScript numbers are modelled as exact rationals (`Rat`); all inputs in
scope are finite numerics, so NaN/Infinity do not arise except where the
source explicitly manufactures Infinity as a sentinel (`Math.min(...)` over
absent defense end times); that sentinel is modelled by `Option Rat` with
`none` standing for positive infinity.  Nullable JS values are `Option`;
JS objects used as integer-keyed maps are association lists where later
assignments win.  Presentation-only strings (condition labels and details)
are omitted; only the `pass` booleans, which feed back into the score, are
kept.  `Date.now()` is modelled as an explicit `now` parameter (epoch
milliseconds).
-/

namespace GambitHD2

attribute [local semireducible] Rat.add Rat.mul Rat.inv Rat.sub Rat.ofScientific

/-- Floor of a rational as an integer, computable form (`num / den` with
integer division); shown below to agree with the mathematical floor. -/
def ratFloor (q : Rat) : Int := q.num / (q.den : Int)

/-- Ceiling of a rational, computable form; models `Math.ceil`. -/
def ratCeil (q : Rat) : Int := -ratFloor (-q)

/-- `Math.round` in JS is floor(x + 1/2) for finite x (ties toward plus infinity). -/
def jsRound (q : Rat) : Int := ratFloor (q + 1/2)

/-- ASCII lower-casing of a string, as `String.toLower` (char-by-char);
written via `List.map` so that it evaluates by kernel reduction. -/
def jsToLower (s : String) : String := ⟨s.data.map Char.toLower⟩

/-- JS `String.prototype.includes`: substring test. -/
def containsSub (s pat : String) : Bool := decide (pat.data.IsInfix s.data)

/-- Lookup in a JS object used as a map: later assignments overwrite
earlier ones, hence the lookup over the reversed association list. -/
def assocGet {β : Type} (m : List (Nat × β)) (k : Nat) : Option β :=
  List.lookup k m.reverse

-- ---- Data model (section 3 of the spec) --------------------------------

/-- The `statistics` sub-object of a planet (only `playerCount` is read). -/
structure Statistics where
  playerCount : Option Rat
deriving DecidableEq

/-- The optional timed `event` on a planet (present only on defenses).
`endTime` is `none` when the field is absent or empty (JS falsy). -/
structure GameEvent where
  health : Rat
  maxHealth : Rat
  endTime : Option Rat
  faction : Option String
deriving DecidableEq

/-- A planet record as consumed by the analysis engine.  `waypoints` is
`planet.waypoints ?? []`. -/
structure Planet where
  index : Nat
  name : Option String
  health : Rat
  maxHealth : Rat
  regenPerSecond : Rat
  currentOwner : Option String
  waypoints : List Nat
  statistics : Option Statistics
  event : Option GameEvent
deriving DecidableEq

/-- A campaign: a planet plus the attacking faction. -/
structure Campaign where
  planet : Planet
  faction : Option String
deriving DecidableEq

/-- The war object, opaque except for `impactMultiplier`. -/
structure War where
  impactMultiplier : Option Rat
deriving DecidableEq

/-- `p.statistics?.playerCount ?? 0`. -/
def jsPlayerCount (p : Planet) : Rat :=
  ((p.statistics.bind Statistics.playerCount).getD 0)

-- ---- part_001 utilities -------------------------------------------------

/-- Liberation percentage of a planet, from part_001.  A falsy `maxHealth`
(zero) short-circuits to 0; otherwise clamped into [0, 100]. -/
def libPct (p : Planet) : Rat :=
  if p.maxHealth = 0 then 0
  else max 0 (min 100 ((1 - p.health / p.maxHealth) * 100))

/-- Hours remaining until an end time (epoch ms), from part_001:
`(new Date(endTimeStr).getTime() - Date.now()) / 3_600_000`. -/
def hoursLeft (endTime now : Rat) : Rat := (endTime - now) / 3600000

-- ---- Snapshot store (gambit.js, recordSnapshot) -------------------------

/-- One snapshot entry: timestamp plus per-planet health and player maps. -/
structure Snapshot where
  ts : Rat
  health : List (Nat × Rat)
  players : List (Nat × Rat)
deriving DecidableEq

/-- Builds the snapshot entry recorded by `recordSnapshot`:
`entry.health[p.index] = p.health; entry.players[p.index] = p.statistics?.playerCount ?? 0`. -/
def mkSnapshotEntry (now : Rat) (planets : Option (List Planet)) : Snapshot :=
  { ts := now
    health := (planets.getD []).map fun p => (p.index, p.health)
    players := (planets.getD []).map fun p => (p.index, jsPlayerCount p) }

/-- `recordSnapshot planets`: push the new entry, then shift (drop the
oldest, i.e. first, entry) if the store holds more than 6. -/
def recordSnapshot (snapshots : List Snapshot) (now : Rat)
    (planets : Option (List Planet)) : List Snapshot :=
  let s := snapshots ++ [mkSnapshotEntry now planets]
  if s.length > 6 then s.tail else s

-- ---- Rate calculation ---------------------------------------------------

/-- `measuredNetRate(planetIndex, maxHealth)` from gambit.js: needs two
snapshots; `null` when either of the two most recent snapshots lacks a
health entry for the planet or they are less than 0.002 hours apart. -/
def measuredNetRate (snapshots : List Snapshot) (planetIndex : Nat)
    (maxHealth : Rat) : Option Rat :=
  match snapshots.reverse with
  | latest :: prev :: _ =>
    match assocGet latest.health planetIndex, assocGet prev.health planetIndex with
    | some latestHealth, some prevHealth =>
      let deltaHours := (latest.ts - prev.ts) / 3600000
      if deltaHours < 0.002 then none
      else some ((prevHealth - latestHealth) / maxHealth * 100 / deltaHours)
    | _, _ => none
  | _ => none

/-- A net-rate value plus the `estimated` flag.  In the source the
`value` field can in principle be `null`, which `calcPlayerRequirements`
checks for, so it is an `Option`. -/
structure NetRateObj where
  value : Option Rat
  estimated : Bool
deriving DecidableEq

/-- `estimatedNetRate(planet)` from gambit.js. -/
def estimatedNetRate (p : Planet) : NetRateObj :=
  let decayPctHr := p.regenPerSecond * 3600 / p.maxHealth * 100
  let players := jsPlayerCount p
  let playerRatePctHr := players / 10000 * 1.0
  { value := some (playerRatePctHr - decayPctHr), estimated := true }

-- ---- Requirement calculator --------------------------------------------

/-- Player requirement result.  The JS object omits `estimated` on the
measured path (undefined, falsy); that is modelled by `estimated = false`. -/
structure PlayerReqs where
  min : Int
  recommended : Int
  estimated : Bool
deriving DecidableEq

/-- `calcPlayerRequirements(planet, netRateObj, impactMultiplier)` from
gambit.js; reads the module-level snapshot store, passed here explicitly. -/
def calcPlayerRequirements (planet : Planet) (netRateObj : NetRateObj)
    (impactMultiplier : Option Rat) (snapshots : List Snapshot) :
    Option PlayerReqs :=
  let decayPctHr := planet.regenPerSecond * 3600 / planet.maxHealth * 100
  let currentPlayers := jsPlayerCount planet
  if 2 ≤ snapshots.length ∧ netRateObj.estimated = false then
    match snapshots.getLast? with
    | none => none
    | some latest =>
      let playerCount := (assocGet latest.players planet.index).getD currentPlayers
      if playerCount < 10 then none
      else
        match netRateObj.value with
        | none => none
        | some measured =>
          let grossPlayerPctHr := measured + decayPctHr
          if grossPlayerPctHr ≤ 0 then none
          else
            let ratePerPlayer := grossPlayerPctHr / playerCount
            if ratePerPlayer ≤ 0 then none
            else
              let mn := max 1 (ratCeil (decayPctHr / ratePerPlayer))
              let remaining := 100 - libPct planet
              some { min := mn
                     recommended := max (mn * 2)
                       (ratCeil ((decayPctHr + remaining * (1/24)) / ratePerPlayer))
                     estimated := false }
  else
    let imp := impactMultiplier.getD 0.005
    if imp ≤ 0 then none
    else
      let mn := ratCeil (decayPctHr / (imp * 0.25))
      some { min := mn, recommended := mn * 3, estimated := true }

-- ---- Conditions checklist ----------------------------------------------

/-- Hours left on a defense campaign, or `none` for the `Infinity` sentinel:
`dc.planet.event?.endTime ? hoursLeft(dc.planet.event.endTime) : Infinity`. -/
def defHoursOpt (dc : Campaign) (now : Rat) : Option Rat :=
  (dc.planet.event.bind GameEvent.endTime).map fun et => hoursLeft et now

/-- Minimum of two extended values, `none` meaning positive infinity. -/
def optMin : Option Rat → Option Rat → Option Rat
  | none, b => b
  | some a, none => some a
  | some a, some b => some (min a b)

/-- `Math.min(...connectedDefenses.map(...))` with `Infinity` for absent
end times, `none` meaning infinity. -/
def minDefHr (defenses : List Campaign) (now : Rat) : Option Rat :=
  (defenses.map fun dc => defHoursOpt dc now).foldr optMin none

/-- Pass flag of the "ETA beats defense expiry" condition:
`timeToComplete != null && isFinite(timeToComplete) && timeToComplete < minDefHr`
(`none` on the right is Infinity, so any finite ETA beats it). -/
def etaBeatsDefense (timeToComplete : Option Rat) (m : Option Rat) : Bool :=
  match timeToComplete, m with
  | some t, some mh => decide (t < mh)
  | some _, none => true
  | none, _ => false

/-- The pass flags of the checklist built by `buildConditions` in gambit.js,
in order.  Labels and details are presentation strings and are omitted;
only `pass` feeds back into scoring. -/
def buildConditions (libCampaign : Campaign) (netRate : Option Rat)
    (timeToComplete : Option Rat) (connectedDefenses : List Campaign)
    (playerReqs : Option PlayerReqs) (now : Rat) : List Bool :=
  let planet := libCampaign.planet
  let libPct_ := libPct planet
  let players := jsPlayerCount planet
  let c1 := decide (25 ≤ libPct_)
  let c2 := match netRate with
    | some r => decide (0 < r)
    | none => false
  let c3 := match timeToComplete with
    | some t => decide (t ≤ 48)
    | none => false
  let conds := [c1, c2, c3]
  let conds := if 0 < connectedDefenses.length then
      conds ++ [etaBeatsDefense timeToComplete (minDefHr connectedDefenses now)]
    else conds
  match playerReqs with
  | some pr => conds ++ [decide ((pr.min : Rat) ≤ players)]
  | none => conds

-- ---- Success scoring ----------------------------------------------------

/-- Liberation-progress score component: `(min(libPct,100)/100) * 25`. -/
def progressComponent (libPct_ : Rat) : Rat := min libPct_ 100 / 100 * 25

/-- Net-rate score component: reward up to 30 for positive rates
(saturating at 5 pct/hr), penalty down to -10 for non-positive rates. -/
def rateComponent (netRate : Option Rat) : Rat :=
  match netRate with
  | none => 0
  | some r => if 0 < r then min (r / 5) 1 * 30 else max (r / 5) (-1) * 10

/-- Time-viability score component; `m` is `minDefHr` of the connected
defenses (`none` = Infinity: any finite ETA beats it with infinite buffer,
hence the full 25 points). -/
def timeViability (timeToComplete : Option Rat) (hasDefs : Bool)
    (m : Option Rat) : Rat :=
  match timeToComplete with
  | none => 0
  | some t =>
    if hasDefs then
      match m with
      | none => 25
      | some mh => if t < mh then min ((mh - t) / 12) 1 * 25 else -15
    else max 0 (1 - t / 48) * 25

/-- Condition-pass-rate score component: `(passed/total) * 20`. -/
def passComponent (conditions : List Bool) : Rat :=
  if 0 < conditions.length then
    ((conditions.count true : Rat) / (conditions.length : Rat)) * 20
  else 0

/-- `calcSuccessPct` from gambit.js: sum of the four components, rounded,
clamped into [0, 100]. -/
def calcSuccessPct (libPct_ : Rat) (netRate : Option Rat)
    (timeToComplete : Option Rat) (connectedDefenses : List Campaign)
    (conditions : List Bool) (now : Rat) : Int :=
  max 0 (min 100 (jsRound
    (progressComponent libPct_ + rateComponent netRate
      + timeViability timeToComplete (decide (0 < connectedDefenses.length))
          (minDefHr connectedDefenses now)
      + passComponent conditions)))

/-- Risk-level display object. -/
structure RiskLevel where
  label : String
  cls : String
deriving DecidableEq

/-- `toRiskLevel(pct)` from gambit.js. -/
def toRiskLevel (pct : Int) : RiskLevel :=
  if 85 ≤ pct then ⟨"OPTIMAL", "optimal"⟩
  else if 70 ≤ pct then ⟨"FAVORABLE", "favorable"⟩
  else if 55 ≤ pct then ⟨"VIABLE", "viable"⟩
  else if 35 ≤ pct then ⟨"RISKY", "risky"⟩
  else ⟨"CRITICAL", "critical"⟩

-- ---- Gambit detection ---------------------------------------------------

/-- The composite gambit record assembled per liberation campaign. -/
structure Gambit where
  libCampaign : Campaign
  connectedDefenses : List Campaign
  connectedLiberation : List Campaign
  libPct : Rat
  netRateObj : NetRateObj
  netRate : Option Rat
  timeToComplete : Option Rat
  players : Rat
  playerReqs : Option PlayerReqs
  conditions : List Bool
  successPct : Int
  risk : RiskLevel
deriving DecidableEq

/-- Bidirectional supply-line adjacency between a planet and a campaign:
`(planet.waypoints ?? []).includes(c.planet.index) || (c.planet.waypoints ?? []).includes(planet.index)`. -/
def connectedTo (planet : Planet) (c : Campaign) : Bool :=
  planet.waypoints.contains c.planet.index
    || c.planet.waypoints.contains planet.index

/-- The loop body of `detectGambits` in gambit.js: assembles the gambit
record for one liberation campaign.  JS reference equality `lc === libCampaign`
is modelled as structural equality (API campaign objects are distinct). -/
def buildGambit (snapshots : List Snapshot) (now : Rat)
    (liberationCampaigns defenseCampaigns : List Campaign) (imp : Rat)
    (libCampaign : Campaign) : Gambit :=
  let planet := libCampaign.planet
  let libPct_ := libPct planet
  let connected := defenseCampaigns.filter fun dc => connectedTo planet dc
  let connectedLiberation := liberationCampaigns.filter fun lc =>
    decide (lc ≠ libCampaign) && connectedTo planet lc
  let measured := measuredNetRate snapshots planet.index planet.maxHealth
  let netRateObj := match measured with
    | some m => ⟨some m, false⟩
    | none => estimatedNetRate planet
  let netRate := netRateObj.value
  let remaining := 100 - libPct_
  let timeToComplete := match netRate with
    | some r => if 0 < r then some (remaining / r) else none
    | none => none
  let players := jsPlayerCount planet
  let playerReqs := calcPlayerRequirements planet netRateObj (some imp) snapshots
  let conditions := buildConditions libCampaign netRate timeToComplete connected
    playerReqs now
  let successPct := calcSuccessPct libPct_ netRate timeToComplete connected
    conditions now
  { libCampaign := libCampaign
    connectedDefenses := connected
    connectedLiberation := connectedLiberation
    libPct := libPct_
    netRateObj := netRateObj
    netRate := netRate
    timeToComplete := timeToComplete
    players := players
    playerReqs := playerReqs
    conditions := conditions
    successPct := successPct
    risk := toRiskLevel successPct }

/-- Whether a gambit has at least one connected defense. -/
def hasDef (g : Gambit) : Bool := decide (0 < g.connectedDefenses.length)

/-- The comparator of the final sort in `detectGambits`, as a boolean
"less or equal" relation: `cmp a b <= 0` where `cmp` first puts gambits
with a connected defense ahead, then sorts by descending score. -/
def gambitLE (a b : Gambit) : Bool :=
  if hasDef a ≠ hasDef b then hasDef a else decide (b.successPct ≤ a.successPct)

/-- `detectGambits(liberationCampaigns, defenseCampaigns, war)` from
gambit.js (the canonical detector); the snapshot store and the clock are
explicit parameters.  JS `Array.prototype.sort` is stable with this
consistent comparator, hence `mergeSort`. -/
def detectGambits (liberationCampaigns defenseCampaigns : List Campaign)
    (war : Option War) (snapshots : List Snapshot) (now : Rat) : List Gambit :=
  let imp := (war.bind War.impactMultiplier).getD 0.005
  let gambits := liberationCampaigns.map
    (buildGambit snapshots now liberationCampaigns defenseCampaigns imp)
  gambits.mergeSort gambitLE

-- ---- Scout detection (part_002) ----------------------------------------

/-- A candidate scout target: an uncontested enemy planet plus its decay
rate (`null` when `maxHealth` is falsy). -/
structure ScoutTarget where
  planet : Planet
  decayPctHr : Option Rat
deriving DecidableEq

/-- One scout result entry: a defense campaign and its qualifying targets. -/
structure ScoutResult where
  defenseCampaign : Campaign
  targets : List ScoutTarget
deriving DecidableEq

/-- JS `Set` insertion-order semantics: keep the first occurrence of each
element. -/
def insertOrderDedup (l : List Nat) : List Nat :=
  l.foldl (fun acc x => if acc.contains x then acc else acc ++ [x]) []

/-- Comparator for targets: ascending decay rate, `none` as Infinity. -/
def targetLE (a b : ScoutTarget) : Bool :=
  match a.decayPctHr, b.decayPctHr with
  | none, none => true
  | none, some _ => false
  | some _, none => true
  | some x, some y => decide (x ≤ y)

/-- Comparator for scout results: ascending defense end time, absent end
times (no timed expiry) last. -/
def scoutResultLE (a b : ScoutResult) : Bool :=
  match a.defenseCampaign.planet.event.bind GameEvent.endTime,
        b.defenseCampaign.planet.event.bind GameEvent.endTime with
  | none, none => true
  | none, some _ => false
  | some _, none => true
  | some x, some y => decide (x ≤ y)

/-- The per-defense-campaign target computation inside `detectScoutTargets`:
one-hop bidirectional supply-line neighbours, minus active campaign
planets, minus unowned or friendly-owned planets, sorted by decay. -/
def scoutTargetsFor (activeIdx : List Nat) (planetByIndex : List (Nat × Planet))
    (allPlanets : List Planet) (dc : Campaign) : List ScoutTarget :=
  let defPlanet := dc.planet
  let connectedIndices := insertOrderDedup
    (defPlanet.waypoints
      ++ (allPlanets.filter fun p => p.waypoints.contains defPlanet.index).map
           Planet.index)
  let targets := connectedIndices.filterMap fun idx =>
    if activeIdx.contains idx then none
    else
      match assocGet planetByIndex idx with
      | none => none
      | some planet =>
        let owner := jsToLower (planet.currentOwner.getD "")
        if owner = "" || containsSub owner "human" then none
        else some ⟨planet,
          if planet.maxHealth ≠ 0
          then some (planet.regenPerSecond * 3600 / planet.maxHealth * 100)
          else none⟩
  targets.mergeSort targetLE

/-- `detectScoutTargets(defenseCampaigns, liberationCampaigns, allPlanets)`
from part_002. -/
def detectScoutTargets (defenseCampaigns liberationCampaigns : List Campaign)
    (allPlanets : List Planet) : List ScoutResult :=
  let activeIdx := (liberationCampaigns.map fun c => c.planet.index)
    ++ (defenseCampaigns.map fun c => c.planet.index)
  let planetByIndex := allPlanets.map fun p => (p.index, p)
  let results := defenseCampaigns.filterMap fun dc =>
    let ts := scoutTargetsFor activeIdx planetByIndex allPlanets dc
    if 0 < ts.length then some ⟨dc, ts⟩ else none
  results.mergeSort scoutResultLE

-- ---- Spec-side reference definition for the rate estimator --------------

/-- The measured-rate contract as worded in the spec: no data when fewer
than 2 snapshots are stored, when either of the two most recent snapshots
lacks a health entry for the planet, or when they are under 7.2 seconds of
each other (timestamps are epoch milliseconds); otherwise
`((previousHealth - latestHealth) / maxHealth) * 100 / elapsedHours`. -/
def measuredNetRateSpec (snapshots : List Snapshot) (planetIndex : Nat)
    (maxHealth : Rat) : Option Rat :=
  match snapshots.reverse with
  | latest :: prev :: _ =>
    match assocGet latest.health planetIndex, assocGet prev.health planetIndex with
    | some latestHealth, some prevHealth =>
      if latest.ts - prev.ts < 7200 then none
      else some ((prevHealth - latestHealth) / maxHealth * 100
        / ((latest.ts - prev.ts) / 3600000))
    | _, _ => none
  | _ => none

-- ---- Concrete sample inputs used by witnesses and counterexamples -------

/-- A fully enemy-held planet: zero liberation progress, no waypoints. -/
def planetZeroProgress : Planet :=
  ⟨0, none, 1000000, 1000000, 0, none, [], none, none⟩

/-- Liberation campaign on the zero-progress planet. -/
def campaignZeroProgress : Campaign := ⟨planetZeroProgress, none⟩

/-- The planet of the estimated-rate example in the spec:
`regenPerSecond = 0.001`, `maxHealth = 1,000,000`, `playerCount = 20,000`. -/
def examplePlanet : Planet :=
  ⟨5, none, 1000000, 1000000, 0.001, none, [], some ⟨some 20000⟩, none⟩

/-- A half-liberated planet with 20,000 players, adjacent to planet 1. -/
def libPlanetA : Planet :=
  ⟨0, none, 500000, 1000000, 0, none, [1], some ⟨some 20000⟩, none⟩

/-- A defended planet whose event expires 30 hours into the epoch. -/
def defPlanetTimed : Planet :=
  ⟨1, none, 0, 1, 0, none, [], none, some ⟨0, 1, some 108000000, none⟩⟩

/-- Liberation campaign on `libPlanetA`. -/
def libCampaignA : Campaign := ⟨libPlanetA, none⟩

/-- Defense campaign on `defPlanetTimed`. -/
def defCampaignTimed : Campaign := ⟨defPlanetTimed, none⟩

/-- A defense campaign adjacent to planet 0 whose event has no end time. -/
def defCampaignUntimed : Campaign :=
  ⟨⟨3, none, 0, 1, 0, none, [0], none, some ⟨0, 1, none, none⟩⟩, none⟩

/-- A planet with decay rate 0.36 percent per hour. -/
def decayPlanet : Planet := ⟨2, none, 1000000, 1000000, 1, none, [], none, none⟩

/-- An estimated net-rate object, forcing the fallback requirement path. -/
def estNetRate : NetRateObj := ⟨some 0, true⟩

/-- A defended planet with a supply line to planet 2, owned by the
friendly faction. -/
def scoutDefPlanet : Planet :=
  ⟨1, none, 0, 1, 0, some "Humans", [2], none,
    some ⟨0, 1, some 3600000, some "Automaton"⟩⟩

/-- An enemy-held planet adjacent to the defended one, not under any
campaign. -/
def scoutTargetPlanet : Planet :=
  ⟨2, some "Target", 1000000, 1000000, 1, some "Automaton", [], none, none⟩

/-- Defense campaign on `scoutDefPlanet`. -/
def scoutDefCampaign : Campaign := ⟨scoutDefPlanet, some "Automaton"⟩

/-- A snapshot store already holding six entries. -/
def sampleStore6 : List Snapshot :=
  [⟨0, [], []⟩, ⟨1, [], []⟩, ⟨2, [], []⟩, ⟨3, [], []⟩, ⟨4, [], []⟩, ⟨5, [], []⟩]

-- ---- Helper lemmas ------------------------------------------------------

theorem ratFloor_eq_floor (q : Rat) : ratFloor q = ⌊q⌋ := Rat.floor_def.symm

theorem ratCeil_eq_ceil (q : Rat) : ratCeil q = ⌈q⌉ := by
  rw [ratCeil, ratFloor_eq_floor, Int.floor_neg, neg_neg]

theorem jsRound_mono {a b : Rat} (h : a ≤ b) : jsRound a ≤ jsRound b := by
  rw [jsRound, jsRound, ratFloor_eq_floor, ratFloor_eq_floor]
  exact Int.floor_mono (add_le_add_right h _)

theorem clampRound_mono {a b : Rat} (h : a ≤ b) :
    max 0 (min 100 (jsRound a)) ≤ max 0 (min 100 (jsRound b)) :=
  max_le_max le_rfl (min_le_min le_rfl (jsRound_mono h))

theorem recordSnapshot_length_le {s : List Snapshot} (h : s.length ≤ 6)
    (t : Rat) (p : Option (List Planet)) :
    (recordSnapshot s t p).length ≤ 6 := by
  rw [recordSnapshot]
  split <;>
    simp only [List.length_tail, List.length_append, List.length_singleton,
      gt_iff_lt, not_lt] at * <;>
    omega

theorem foldl_recordSnapshot_length_le
    (calls : List (Rat × Option (List Planet))) :
    ∀ s : List Snapshot, s.length ≤ 6 →
      (calls.foldl (fun s c => recordSnapshot s c.1 c.2) s).length ≤ 6 := by
  induction calls with
  | nil => intro s h; simpa using h
  | cons c t ih =>
    intro s h
    exact ih (recordSnapshot s c.1 c.2) (recordSnapshot_length_le h c.1 c.2)

-- ---- C2 -----------------------------------------------------------------

/-- C2, counterexample: for the input `regenPerSecond = 0.001`,
`maxHealth = 1,000,000`, `playerCount = 20,000`, `estimatedNetRate` does not
return the claimed net value 1.64 (the claimed decay rate 0.36 is off by a
factor of 1000). -/
theorem estimatedNetRate_example_refuted :
    estimatedNetRate examplePlanet ≠ ⟨some 1.64, true⟩ ∧
    (estimatedNetRate examplePlanet).value = some 1.99964 := by
  exact ⟨by decide, by decide⟩

/-- C2, amended: `estimatedNetRate` returns
`{ value := playerRate - decayRate, estimated := true }` with
`decayRate = regenPerSecond * 3600 / maxHealth * 100` and
`playerRate = playerCount / 10000`; on the example input the decay rate is
0.00036 percent per hour, the player rate is 2.0, and the net value is
1.99964, flagged as estimated. -/
theorem estimatedNetRate_formula :
    (∀ p : Planet, estimatedNetRate p =
      ⟨some (jsPlayerCount p / 10000 * 1.0
        - p.regenPerSecond * 3600 / p.maxHealth * 100), true⟩) ∧
    (0.001 : Rat) * 3600 / 1000000 * 100 = 0.00036 ∧
    (20000 : Rat) / 10000 * 1.0 = 2 ∧
    estimatedNetRate examplePlanet = ⟨some (2 - 0.00036), true⟩ ∧
    (2 : Rat) - 0.00036 = 1.99964 := by
  exact ⟨fun p => rfl, by decide, by decide, by decide, by decide⟩

-- ---- C5 -----------------------------------------------------------------

/-- C5: `libPct` always lies in [0, 100], for every planet record and
whatever the magnitudes or signs of its numeric fields, and
`calcSuccessPct` always returns an integer (its codomain is `Int`) in
[0, 100], for all inputs. -/
theorem libPct_successPct_bounds :
    (∀ p : Planet, 0 ≤ libPct p ∧ libPct p ≤ 100) ∧
    ∀ l r tc defs conds now, 0 ≤ calcSuccessPct l r tc defs conds now ∧
      calcSuccessPct l r tc defs conds now ≤ 100 := by
  constructor
  · intro p
    rw [libPct]
    split
    · exact ⟨le_rfl, by norm_num⟩
    · exact ⟨le_max_left 0 _, max_le (by norm_num) (min_le_left 100 _)⟩
  · intro l r tc defs conds now
    rw [calcSuccessPct]
    exact ⟨le_max_left 0 _, max_le (by norm_num) (min_le_left 100 _)⟩

-- ---- C6 -----------------------------------------------------------------

/-- C6: starting from the empty store, any sequence of `recordSnapshot`
calls leaves at most 6 entries, and recording into a store already holding
6 entries drops exactly the oldest entry and appends the new one at the
end (keeping the 6 most recent in capture order). -/
theorem snapshotStore_bounded :
    (∀ calls : List (Rat × Option (List Planet)),
      (calls.foldl (fun s c => recordSnapshot s c.1 c.2) []).length ≤ 6) ∧
    ∀ (s : List Snapshot) (t : Rat) (p : Option (List Planet)),
      s.length = 6 →
      recordSnapshot s t p = s.tail ++ [mkSnapshotEntry t p] := by
  constructor
  · intro calls
    exact foldl_recordSnapshot_length_le calls [] (by simp)
  · intro s t p h
    rw [recordSnapshot]
    rw [if_pos (by simp [h])]
    cases s with
    | nil => simp at h
    | cons a u => rfl

/-- C6, witness: recording a seventh snapshot into a six-entry store. -/
theorem snapshotStore_bounded_witness :
    recordSnapshot sampleStore6 6 none
      = sampleStore6.tail ++ [mkSnapshotEntry 6 none] :=
  snapshotStore_bounded.2 sampleStore6 6 none (by decide)

-- ---- C7 -----------------------------------------------------------------

/-- C7: `measuredNetRate` returns no data exactly when fewer than 2
snapshots are stored, when either of the two most recent snapshots lacks a
health entry for the planet, or when the elapsed time between them is
under 7.2 seconds (0.002 hours); in every other case it returns
`((previousHealth - latestHealth) / maxHealth) * 100 / elapsedHours`.
Stated as equality with the definition transcribed from the wording of the
spec (whose threshold is 7200 milliseconds rather than 0.002 hours). -/
theorem measuredNetRate_meets_spec :
    ∀ (snapshots : List Snapshot) (planetIndex : Nat) (maxHealth : Rat),
      measuredNetRate snapshots planetIndex maxHealth
        = measuredNetRateSpec snapshots planetIndex maxHealth := by
  intro snapshots planetIndex maxHealth
  rw [measuredNetRate, measuredNetRateSpec]
  cases hrev : snapshots.reverse with
  | nil => rfl
  | cons latest t =>
    cases t with
    | nil => rfl
    | cons prev t2 =>
      cases h1 : assocGet latest.health planetIndex with
      | none => simp only [h1]
      | some latestHealth =>
        cases h2 : assocGet prev.health planetIndex with
        | none => simp only [h1, h2]
        | some prevHealth =>
          simp only [h1, h2]
          have hiff : (latest.ts - prev.ts) / 3600000 < 0.002
              ↔ latest.ts - prev.ts < 7200 := by
            rw [div_lt_iff₀ (by norm_num)]
            norm_num
          by_cases hlt : latest.ts - prev.ts < 7200
          · rw [if_pos (hiff.mpr hlt), if_pos hlt]
          · rw [if_neg (fun hc => hlt (hiff.mp hc)), if_neg hlt]

-- ---- C4 -----------------------------------------------------------------

/-- C4, counterexample: with `impactMultiplier = -1` (present but
non-positive) and an estimated rate, `calcPlayerRequirements` returns the
absent result, not the record computed from the claimed default 0.005
(which would be `{ min := 288, recommended := 864, estimated := true }`
for a decay rate of 0.36). -/
theorem calcPlayerRequirements_nonpositive_multiplier :
    calcPlayerRequirements decayPlanet estNetRate (some (-1)) [] = none ∧
    (none : Option PlayerReqs) ≠ some ⟨288, 864, true⟩ := by
  exact ⟨by decide, by decide⟩

/-- C4, amended: when `impactMultiplier` is absent the default 0.005 is
used, so the fallback path returns
`{ min := ceil(decayRate / (0.005 * 0.25)), recommended := min * 3,
estimated := true }`; when the multiplier is present but non-positive the
fallback instead fails with an absent result. -/
theorem calcPlayerRequirements_fallback :
    ∀ (p : Planet) (nro : NetRateObj) (snapshots : List Snapshot),
      nro.estimated = true →
      (calcPlayerRequirements p nro none snapshots
        = some ⟨⌈p.regenPerSecond * 3600 / p.maxHealth * 100 / (0.005 * 0.25)⌉,
                ⌈p.regenPerSecond * 3600 / p.maxHealth * 100 / (0.005 * 0.25)⌉ * 3,
                true⟩) ∧
      ∀ v : Rat, v ≤ 0 →
        calcPlayerRequirements p nro (some v) snapshots = none := by
  intro p nro snapshots hest
  have hcond : ¬ (2 ≤ snapshots.length ∧ nro.estimated = false) := by
    rintro ⟨-, hf⟩
    rw [hest] at hf
    cases hf
  constructor
  · rw [calcPlayerRequirements, if_neg hcond]
    simp only [Option.getD_none]
    rw [if_neg (by norm_num), ratCeil_eq_ceil]
  · intro v hv
    rw [calcPlayerRequirements, if_neg hcond]
    simp only [Option.getD_some]
    rw [if_pos hv]

/-- C4, witness: the fallback at a planet with decay rate 0.36 and an
absent multiplier yields `{ min := 288, recommended := 864,
estimated := true }`, and with multiplier -1 it yields the absent result. -/
theorem calcPlayerRequirements_fallback_witness :
    calcPlayerRequirements decayPlanet estNetRate none [] = some ⟨288, 864, true⟩ ∧
    calcPlayerRequirements decayPlanet estNetRate (some (-1)) [] = none := by
  have h := calcPlayerRequirements_fallback decayPlanet estNetRate [] rfl
  exact ⟨h.1.trans (by rw [← ratCeil_eq_ceil]; decide), h.2 (-1) (by norm_num)⟩

-- ---- C1 -----------------------------------------------------------------

/-- C1, counterexample: a liberation campaign with zero liberation progress
and no supply-line-connected defense campaign (here there are no defense
campaigns at all) is NOT excluded: it yields a gambit entry with an empty
`connectedDefenses` list. -/
theorem detectGambits_includes_zero_progress_unconnected :
    libPct planetZeroProgress = 0 ∧
    (detectGambits [campaignZeroProgress] [] none [] 0).map
        (fun g => (g.libCampaign, g.connectedDefenses))
      = [(campaignZeroProgress, [])] := by
  constructor
  · decide
  · simp only [detectGambits, List.map, List.mergeSort_singleton]
    decide

/-- C1, amended: `detectGambits` excludes no liberation campaign at all:
the returned list has exactly one gambit per input liberation campaign,
and every input campaign (in particular a zero-progress one, with or
without connected defenses) appears as the `libCampaign` of some entry. -/
theorem detectGambits_excludes_nothing :
    ∀ (liberationCampaigns defenseCampaigns : List Campaign)
      (war : Option War) (snapshots : List Snapshot) (now : Rat),
      (detectGambits liberationCampaigns defenseCampaigns war snapshots
          now).length = liberationCampaigns.length ∧
      ∀ lc ∈ liberationCampaigns,
        ∃ g ∈ detectGambits liberationCampaigns defenseCampaigns war
            snapshots now, g.libCampaign = lc := by
  intro libs defs war snapshots now
  constructor
  · rw [detectGambits]
    simp only [List.length_mergeSort, List.length_map]
  · intro lc hlc
    refine ⟨buildGambit snapshots now libs defs
      ((war.bind War.impactMultiplier).getD 0.005) lc, ?_, rfl⟩
    rw [detectGambits]
    exact List.mem_mergeSort.mpr (List.mem_map_of_mem _ hlc)

/-- C1, witness: the zero-progress campaign of the counterexample input
indeed appears in the output. -/
theorem detectGambits_excludes_nothing_witness :
    ∃ g ∈ detectGambits [campaignZeroProgress] [] none [] 0,
      g.libCampaign = campaignZeroProgress :=
  (detectGambits_excludes_nothing [campaignZeroProgress] [] none [] 0).2
    campaignZeroProgress (by decide)

-- ---- C3 -----------------------------------------------------------------

theorem gambitLE_trans (a b c : Gambit) (hab : gambitLE a b = true)
    (hbc : gambitLE b c = true) : gambitLE a c = true := by
  rw [gambitLE] at *
  cases hA : hasDef a <;> cases hB : hasDef b <;> cases hC : hasDef c <;>
    simp [hA, hB, hC] at * <;> omega

theorem gambitLE_total (a b : Gambit) :
    (gambitLE a b || gambitLE b a) = true := by
  rw [gambitLE, gambitLE]
  cases hA : hasDef a <;> cases hB : hasDef b <;> simp [hA, hB] <;> omega

theorem gambitLE_imp {a b : Gambit} (h : gambitLE a b = true) :
    (hasDef b = true → hasDef a = true) ∧
    (hasDef a = hasDef b → b.successPct ≤ a.successPct) := by
  rw [gambitLE] at h
  cases hA : hasDef a <;> cases hB : hasDef b <;> simp [hA, hB] at * <;> omega

/-- C3: in the output of `detectGambits`, every gambit with at least one
connected defense precedes every gambit with none, regardless of score,
and within each group the scores are non-increasing (pairwise along the
returned list). -/
theorem detectGambits_sorted :
    ∀ (liberationCampaigns defenseCampaigns : List Campaign)
      (war : Option War) (snapshots : List Snapshot) (now : Rat),
      List.Pairwise
        (fun a b => (hasDef b = true → hasDef a = true) ∧
          (hasDef a = hasDef b → b.successPct ≤ a.successPct))
        (detectGambits liberationCampaigns defenseCampaigns war snapshots
          now) := by
  intro libs defs war snapshots now
  rw [detectGambits]
  exact (List.sorted_mergeSort gambitLE_trans gambitLE_total _).imp gambitLE_imp

/-- C3, witness: the sortedness property at a concrete input. -/
theorem detectGambits_sorted_witness :
    List.Pairwise
      (fun a b => (hasDef b = true → hasDef a = true) ∧
        (hasDef a = hasDef b → b.successPct ≤ a.successPct))
      (detectGambits [libCampaignA, campaignZeroProgress] [defCampaignTimed]
        none [] 0) :=
  detectGambits_sorted [libCampaignA, campaignZeroProgress] [defCampaignTimed]
    none [] 0

-- ---- C9 -----------------------------------------------------------------

theorem progressComponent_mono {a b : Rat} (h : a ≤ b) :
    progressComponent a ≤ progressComponent b := by
  rw [progressComponent, progressComponent]
  have h1 : min a 100 ≤ min b 100 := min_le_min h le_rfl
  gcongr

theorem rateComponent_mono_pos {r₁ r₂ : Rat} (h1 : 0 < r₁) (h2 : r₁ ≤ r₂) :
    rateComponent (some r₁) ≤ rateComponent (some r₂) := by
  simp only [rateComponent]
  rw [if_pos h1, if_pos (lt_of_lt_of_le h1 h2)]
  have h3 : min (r₁ / 5) 1 ≤ min (r₂ / 5) 1 := min_le_min (by gcongr) le_rfl
  gcongr

/-- C9: `calcSuccessPct` is monotonically non-decreasing in its liberation
percentage argument with all other arguments fixed, and, for net rates
greater than 0, monotonically non-decreasing in the net rate with all
other arguments fixed. -/
theorem calcSuccessPct_monotone :
    (∀ (l₁ l₂ : Rat) (r tc : Option Rat) (defs : List Campaign)
        (conds : List Bool) (now : Rat), l₁ ≤ l₂ →
      calcSuccessPct l₁ r tc defs conds now
        ≤ calcSuccessPct l₂ r tc defs conds now) ∧
    ∀ (l : Rat) (r₁ r₂ : Rat) (tc : Option Rat) (defs : List Campaign)
        (conds : List Bool) (now : Rat), 0 < r₁ → r₁ ≤ r₂ →
      calcSuccessPct l (some r₁) tc defs conds now
        ≤ calcSuccessPct l (some r₂) tc defs conds now := by
  constructor
  · intro l₁ l₂ r tc defs conds now h
    rw [calcSuccessPct, calcSuccessPct]
    exact clampRound_mono
      (add_le_add_right (add_le_add_right
        (add_le_add_right (progressComponent_mono h) _) _) _)
  · intro l r₁ r₂ tc defs conds now h1 h2
    rw [calcSuccessPct, calcSuccessPct]
    exact clampRound_mono
      (add_le_add_right (add_le_add_right
        (add_le_add_left (rateComponent_mono_pos h1 h2) _) _) _)

/-- C9, witness: both monotonicity statements applied at concrete inputs. -/
theorem calcSuccessPct_monotone_witness :
    calcSuccessPct 10 (some 1) none [] [] 0
      ≤ calcSuccessPct 20 (some 1) none [] [] 0 ∧
    calcSuccessPct 50 (some 1) none [] [] 0
      ≤ calcSuccessPct 50 (some 2) none [] [] 0 :=
  ⟨calcSuccessPct_monotone.1 10 20 (some 1) none [] [] 0 (by norm_num),
   calcSuccessPct_monotone.2 50 1 2 none [] [] 0 (by norm_num) (by norm_num)⟩

-- ---- C10 ----------------------------------------------------------------

/-- C10, counterexample: two calls with identical liberation campaigns,
defense campaigns, war object and snapshot-store contents, differing only
in the ambient clock (`Date.now()`, reached through `hoursLeft`), return
different results: the defense time remaining shrinks from 30h to 20h,
flipping the "ETA beats defense expiry" condition and the score. -/
theorem detectGambits_clock_dependent :
    detectGambits [libCampaignA] [defCampaignTimed] none [] 0
      ≠ detectGambits [libCampaignA] [defCampaignTimed] none [] 36000000 := by
  simp only [detectGambits, List.map, List.mergeSort_singleton]
  decide

theorem minDefHr_of_no_endTime :
    ∀ (l : List Campaign),
      (∀ c ∈ l, c.planet.event.bind GameEvent.endTime = none) →
      ∀ now : Rat, minDefHr l now = none := by
  intro l
  induction l with
  | nil => intro _ _; rfl
  | cons a t ih =>
    intro h now
    have ha : defHoursOpt a now = none := by
      rw [defHoursOpt, h a (List.mem_cons_self a t)]
      rfl
    have ht := ih (fun c hc => h c (List.mem_cons_of_mem a hc)) now
    rw [minDefHr] at ht ⊢
    rw [List.map_cons, List.foldr_cons, ha, ht]
    rfl

theorem buildConditions_congr_now {lc : Campaign} {nr tc : Option Rat}
    {conn : List Campaign} {pr : Option PlayerReqs} {t₁ t₂ : Rat}
    (h : minDefHr conn t₁ = minDefHr conn t₂) :
    buildConditions lc nr tc conn pr t₁ = buildConditions lc nr tc conn pr t₂ := by
  simp only [buildConditions, h]

theorem calcSuccessPct_congr_now {l : Rat} {nr tc : Option Rat}
    {conn : List Campaign} {conds : List Bool} {t₁ t₂ : Rat}
    (h : minDefHr conn t₁ = minDefHr conn t₂) :
    calcSuccessPct l nr tc conn conds t₁ = calcSuccessPct l nr tc conn conds t₂ := by
  simp only [calcSuccessPct, h]

theorem buildGambit_congr_now {snapshots : List Snapshot} {t₁ t₂ : Rat}
    {libs defs : List Campaign} {imp : Rat} {lc : Campaign}
    (h : ∀ c ∈ defs, c.planet.event.bind GameEvent.endTime = none) :
    buildGambit snapshots t₁ libs defs imp lc
      = buildGambit snapshots t₂ libs defs imp lc := by
  have hconn : ∀ c ∈ defs.filter fun dc => connectedTo lc.planet dc,
      c.planet.event.bind GameEvent.endTime = none :=
    fun c hc => h c (List.mem_of_mem_filter hc)
  have h12 : minDefHr (defs.filter fun dc => connectedTo lc.planet dc) t₁
      = minDefHr (defs.filter fun dc => connectedTo lc.planet dc) t₂ :=
    (minDefHr_of_no_endTime _ hconn t₁).trans
      (minDefHr_of_no_endTime _ hconn t₂).symm
  simp only [buildGambit]
  rw [buildConditions_congr_now h12, calcSuccessPct_congr_now h12]

/-- C10, amended: `detectGambits` is a pure function of its explicit
inputs, the snapshot-store contents, and the current clock reading: with
those fixed the result is determined, and the clock only enters through
the end times of connected defense events, so whenever no defense
campaign carries an event end time the result is independent of the
clock. -/
theorem detectGambits_deterministic_given_clock :
    ∀ (liberationCampaigns defenseCampaigns : List Campaign)
      (war : Option War) (snapshots : List Snapshot) (t₁ t₂ : Rat),
      (∀ dc ∈ defenseCampaigns,
        dc.planet.event.bind GameEvent.endTime = none) →
      detectGambits liberationCampaigns defenseCampaigns war snapshots t₁
        = detectGambits liberationCampaigns defenseCampaigns war snapshots t₂ := by
  intro libs defs war snapshots t₁ t₂ h
  simp only [detectGambits]
  exact congrArg (fun l => List.mergeSort l gambitLE)
    (List.map_congr_left fun lc _ => buildGambit_congr_now h)

/-- C10, witness: with a connected defense campaign whose event has no end
time, the results at two different clock readings coincide. -/
theorem detectGambits_deterministic_witness :
    detectGambits [libCampaignA] [defCampaignUntimed] none [] 0
      = detectGambits [libCampaignA] [defCampaignUntimed] none [] 36000000 :=
  detectGambits_deterministic_given_clock [libCampaignA] [defCampaignUntimed]
    none [] 0 36000000 (by decide)

-- ---- C8 -----------------------------------------------------------------

theorem lookup_mem {β : Type} {k : Nat} {v : β} :
    ∀ {m : List (Nat × β)}, List.lookup k m = some v → (k, v) ∈ m := by
  intro m
  induction m with
  | nil => intro h; simp [List.lookup] at h
  | cons a t ih =>
    obtain ⟨k2, v2⟩ := a
    intro h
    rw [List.lookup] at h
    cases hbeq : (k == k2) with
    | true =>
      rw [hbeq] at h
      have hv : v2 = v := Option.some.inj h
      have hk : k = k2 := eq_of_beq hbeq
      exact List.mem_cons.mpr (Or.inl (by rw [hk, hv]))
    | false =>
      rw [hbeq] at h
      exact List.mem_cons_of_mem _ (ih h)

theorem assocGet_mem {β : Type} {m : List (Nat × β)} {k : Nat} {v : β}
    (h : assocGet m k = some v) : (k, v) ∈ m := by
  rw [assocGet] at h
  exact List.mem_reverse.mp (lookup_mem h)

theorem assocGet_planet_index {planets : List Planet} {idx : Nat} {p : Planet}
    (h : assocGet (planets.map fun q => (q.index, q)) idx = some p) :
    p.index = idx := by
  have hm := assocGet_mem h
  rw [List.mem_map] at hm
  obtain ⟨q, -, hq⟩ := hm
  have h1 : q.index = idx := congrArg Prod.fst hq
  have h2 : q = p := congrArg Prod.snd hq
  rw [← h2, h1]

/-- C8: no target planet in any result of `detectScoutTargets` carries the
index of an active liberation or defense campaign planet, and no target
planet has a missing or empty owner, or an owner identified as the
friendly (human) faction. -/
theorem detectScoutTargets_excludes :
    ∀ (defenseCampaigns liberationCampaigns : List Campaign)
      (allPlanets : List Planet) (res : ScoutResult),
      res ∈ detectScoutTargets defenseCampaigns liberationCampaigns allPlanets →
      ∀ t ∈ res.targets,
        (t.planet.index ∉ liberationCampaigns.map (fun c => c.planet.index) ∧
          t.planet.index ∉ defenseCampaigns.map (fun c => c.planet.index)) ∧
        jsToLower (t.planet.currentOwner.getD "") ≠ "" ∧
        containsSub (jsToLower (t.planet.currentOwner.getD "")) "human" = false := by
  intro defs libs planets res hres t ht
  simp only [detectScoutTargets] at hres
  obtain ⟨dc, hdc, hfn⟩ := List.mem_filterMap.mp (List.mem_mergeSort.mp hres)
  split at hfn
  case isFalse => cases hfn
  case isTrue =>
    have hres2 := Option.some.inj hfn
    rw [← hres2] at ht
    simp only [scoutTargetsFor] at ht
    obtain ⟨idx, hidx, hf⟩ := List.mem_filterMap.mp (List.mem_mergeSort.mp ht)
    split at hf
    case isTrue => cases hf
    case isFalse hactive =>
      cases hpl : assocGet ((planets.map fun p => (p.index, p))) idx with
      | none => rw [hpl] at hf; cases hf
      | some planet =>
        rw [hpl] at hf
        simp only at hf
        split at hf
        case isTrue => cases hf
        case isFalse hown =>
          have htp : t.planet = planet := by
            have := Option.some.inj hf
            rw [← this]
          have hidxeq : t.planet.index = idx := by
            rw [htp]
            exact assocGet_planet_index hpl
          have hnotmem : t.planet.index ∉
              (libs.map fun c => c.planet.index)
                ++ (defs.map fun c => c.planet.index) := by
            rw [hidxeq]
            intro hmem
            exact hactive (List.elem_iff.mpr hmem)
          rw [List.mem_append] at hnotmem
          push_neg at hnotmem
          have hown2 : ¬ (jsToLower (planet.currentOwner.getD "") = "") ∧
              containsSub (jsToLower (planet.currentOwner.getD "")) "human"
                = false := by
            constructor
            · intro he
              exact hown (by rw [he]; simp)
            · by_cases hcs : containsSub (jsToLower (planet.currentOwner.getD ""))
                  "human" = true
              · exact absurd (by rw [hcs]; simp) hown
              · simpa using hcs
          refine ⟨hnotmem, ?_, ?_⟩
          · rw [htp]
            exact hown2.1
          · rw [htp]
            exact hown2.2

/-- C8, witness: at a concrete input with one defense campaign (planet 1)
and an adjacent enemy-held planet 2, the returned target is planet 2,
which is under no campaign, has a non-empty owner, and is not
friendly-owned. -/
theorem detectScoutTargets_excludes_witness :
    ((⟨scoutTargetPlanet, some 0.36⟩ : ScoutTarget).planet.index
        ∉ ([] : List Campaign).map (fun c => c.planet.index) ∧
      (⟨scoutTargetPlanet, some 0.36⟩ : ScoutTarget).planet.index
        ∉ [scoutDefCampaign].map (fun c => c.planet.index)) ∧
    jsToLower ((⟨scoutTargetPlanet, some 0.36⟩ : ScoutTarget).planet.currentOwner.getD "")
      ≠ "" ∧
    containsSub
      (jsToLower ((⟨scoutTargetPlanet, some 0.36⟩ : ScoutTarget).planet.currentOwner.getD ""))
      "human" = false :=
  detectScoutTargets_excludes [scoutDefCampaign] [] [scoutDefPlanet, scoutTargetPlanet]
    ⟨scoutDefCampaign, [⟨scoutTargetPlanet, some 0.36⟩]⟩
    (by
      simp +decide [detectScoutTargets, scoutTargetsFor, List.filterMap,
        List.mergeSort_singleton, insertOrderDedup, assocGet, jsToLower,
        containsSub, scoutDefCampaign, scoutDefPlanet, scoutTargetPlanet])
    ⟨scoutTargetPlanet, some 0.36⟩ (by decide)

end GambitHD2
